import Mathlib

/-!
Shallow embedding of the wagtail-reusable-blocks core: the ReusableBlock
data model, the configuration lookup (conf.py), the chooser-block render
path (blocks/chooser.py), the layout render path (blocks/layout.py), the
API serializer validation (api/serializers.py), and the circular-reference
and slot-detection utilities described by the specification.

Machine representation choices: a StreamField content value is a list of
tagged segments; the database is a list of rows; Django template loading
is a partial map from template names to rendering functions; Python
exceptions are modelled with Except.
-/

namespace WRB

/-- Content segment of a ReusableBlock StreamField.  The default model
declares rich_text and raw_html segments (models/reusable_block.py); a
reference-typed segment pointing at another ReusableBlock is available
depending on configuration (spec section 3, blocks/slot_fill.py). -/
inductive Segment where
  | rich_text (html : String)
  | raw_html (html : String)
  | block_ref (target : Nat)
deriving DecidableEq

/-- Row of the ReusableBlock table: primary key, slug and StreamField
content (models/reusable_block.py fields). -/
structure RBlock where
  pk : Nat
  slug : String
  content : List Segment
deriving DecidableEq

/-- Database state: the list of persisted ReusableBlock rows. -/
abbrev DB := List RBlock

/-- Primary-key lookup, modelling ReusableBlock.objects.get(pk=...);
Option.none models DoesNotExist for a deleted or never-existing row. -/
def dbFind (db : DB) (pk : Nat) : Option RBlock :=
  db.find? (fun b => b.pk == pk)

/-- Python values stored in a settings dict, as far as this package
distinguishes them: None, integers, strings, and BLOCK_TYPES-style lists
of type tags. -/
inductive Val where
  | none
  | int (n : Int)
  | str (s : String)
  | blockTypes (tags : List String)
deriving DecidableEq

/-- Python dict.get on a string-keyed dict: the stored value when the key
is present (even a falsy one), Option.none otherwise. -/
def dictGet (d : List (String × Val)) (key : String) : Option Val :=
  (d.find? (fun p => p.fst == key)).map Prod.snd

/-- Module-level DEFAULTS dict of conf.py: BLOCK_TYPES and TEMPLATE, and
nothing else. -/
def DEFAULTS : List (String × Val) :=
  [("BLOCK_TYPES", Val.blockTypes ["rich_text", "raw_html"]),
   ("TEMPLATE", Val.str "wagtail_reusable_blocks/reusable_block.html")]

/-- Embedding of conf.get_setting: user_settings is the
WAGTAIL_REUSABLE_BLOCKS dict from Django settings (empty list when the
user configured nothing); default is the explicit default argument, with
Val.none standing for the Python default None.  Source:
fallback = default if default is not None else DEFAULTS.get(key);
return user_settings.get(key, fallback). -/
def get_setting (user_settings : List (String × Val)) (key : String) (default : Val) : Val :=
  let fallback := if default = Val.none then (dictGet DEFAULTS key).getD Val.none else default
  (dictGet user_settings key).getD fallback

/-- Render context threaded through block rendering, mapping context keys
(such as the depth counter key) to integers. -/
abbrev Ctx := List (String × Int)

/-- Django template loader: a partial map from template names to template
rendering functions; Option.none models TemplateDoesNotExist being raised
by render_to_string. -/
abbrev Loader := String → Option (RBlock → Ctx → String)

/-- Python truthiness of `template or get_setting("TEMPLATE")` in
ReusableBlock.render: an absent or empty template argument falls back to
the TEMPLATE setting. -/
def template_or (template : Option String) (setting : String) : String :=
  match template with
  | Option.none => setting
  | Option.some t => if t = "" then setting else t

/-- String coercion of the TEMPLATE setting value. -/
def valToStr : Val → String
  | Val.str s => s
  | _ => ""

/-- Augmented error message raised by ReusableBlock.render when the
template cannot be loaded; the wording depends on whether an explicit
template argument was supplied (models/reusable_block.py). -/
def missing_template_msg (template : Option String) (name : String) : String :=
  match template with
  | Option.some _ =>
      "Template " ++ name ++ (" not found. " ++
        "Make sure it exists in one of your TEMPLATES DIRS or app template directories.")
  | Option.none =>
      "Default template " ++ name ++ (" not found. " ++
        "This may indicate a package installation issue. Try reinstalling " ++
        "wagtail-reusable-blocks or set a custom template via the WAGTAIL_REUSABLE_BLOCKS TEMPLATE setting.")

/-- Embedding of ReusableBlock.render (models/reusable_block.py): resolve
the template name from the argument or the TEMPLATE setting, then render
through the loader; a failed template load is re-raised as
TemplateDoesNotExist with the augmented message, modelled as
Except.error. -/
def blockRender (loader : Loader) (user_settings : List (String × Val))
    (template : Option String) (b : RBlock) (context : Ctx) : Except String String :=
  let template_name := template_or template (valToStr (get_setting user_settings "TEMPLATE" Val.none))
  match loader template_name with
  | Option.some render_to_string => Except.ok (render_to_string b context)
  | Option.none => Except.error (missing_template_msg template template_name)

/-- Embedding of ReusableBlockChooserBlock.render_basic
(blocks/chooser.py): a None value renders as the empty string; otherwise
the referenced snippet is dereferenced and rendered via
ReusableBlock.render with the given context, and every failure (deleted
row, template error, any rendering exception) is caught and converted to
the empty string.  The value is modelled as the stored reference
(Option of a primary key) and the snippet dereference as a dbFind. -/
def render_basic (loader : Loader) (user_settings : List (String × Val))
    (db : DB) (value : Option Nat) (context : Ctx) : String :=
  match value with
  | Option.none => ""
  | Option.some pk =>
    match dbFind db pk with
    | Option.none => ""
    | Option.some b =>
      match blockRender loader user_settings Option.none b context with
      | Except.ok s => s
      | Except.error _ => ""

/-- Modelled from the spec: the packaged template
wagtail_reusable_blocks/reusable_block.html is not in the source
snapshot; per the spec the block template renders the content segments
in order (reference segments render through the nested chooser path and
are out of scope of this template model). -/
def segHtml : Segment → String
  | Segment.rich_text h => h
  | Segment.raw_html h => h
  | Segment.block_ref _ => ""

/-- Modelled from the spec: rendered HTML of a content StreamField, the
concatenation of its segments. -/
def renderContent (b : RBlock) : String :=
  String.join (b.content.map segHtml)

/-- Modelled from the spec: a template loader holding exactly the
packaged default template, which renders the content of the bound block
and reads nothing from the context. -/
def defaultLoader : Loader := fun name =>
  if name = "wagtail_reusable_blocks/reusable_block.html" then
    Option.some (fun b _ => renderContent b)
  else
    Option.none

/-- Modelled from the spec: ReusableBlock.get_referenced_blocks is absent
from the source snapshot (only tests/test_circular_reference.py calls
it); per spec section 4.1 it scans the content segments for
reference-typed values and fetches each referenced row, ignoring
dangling references to deleted blocks. -/
def get_referenced_blocks (db : DB) (b : RBlock) : List RBlock :=
  b.content.filterMap (fun seg =>
    match seg with
    | Segment.block_ref t => dbFind db t
    | _ => Option.none)

/-- Validation of each block of a list in turn with a given one-block
validation step, stopping at the first failure. -/
def detectRefsWith (step : RBlock → List Nat → Except String Unit) :
    List RBlock → List Nat → Except String Unit
  | [], _ => Except.ok ()
  | r :: rs, visited =>
    match step r visited with
    | Except.error e => Except.error e
    | Except.ok _ => detectRefsWith step rs visited

/-- Modelled from the spec: ReusableBlock.detect_circular_references is
absent from the source snapshot (only tests/test_circular_reference.py
calls it).  Per spec section 4.1: fail with the message
Circular reference detected when the block identifier is already in the
visited set, otherwise add the identifier and recursively validate every
directly referenced block with the updated visited set.  The fuel
argument bounds the recursion depth for termination; the top-level entry
point supplies enough fuel to visit every row of the database. -/
def detect_circular_references (db : DB) : Nat → RBlock → List Nat → Except String Unit
  | fuel, b, visited =>
    if b.pk ∈ visited then Except.error "Circular reference detected"
    else
      match fuel with
      | 0 => Except.ok ()
      | Nat.succ f =>
        detectRefsWith (detect_circular_references db f)
          (get_referenced_blocks db b) (b.pk :: visited)

/-- Modelled from the spec: the model clean() override is absent from the
source snapshot (only tests/test_circular_reference.py calls it); per
spec section 4.1 it invokes the circular-reference detection with an
empty visited set.  The fuel db.length + 1 suffices to visit every row
once. -/
def clean (db : DB) (b : RBlock) : Except String Unit :=
  detect_circular_references db (db.length + 1) b []

/-- Modelled from the spec: Django full_clean runs the model clean()
hook, so the circular-reference validation fires through the standard
model-validation pathway (field-level validation is outside the scope of
the embedded claims). -/
def full_clean (db : DB) (b : RBlock) : Except String Unit :=
  clean db b

/-- Embedding of ReusableBlockSerializer.create (api/serializers.py):
build the instance, run full_clean, and only on success persist the row
(save_revision carries no model state and is elided).  On a validation
error the database is returned unchanged. -/
def serializer_create (db : DB) (inst : RBlock) : DB × Except String RBlock :=
  match full_clean db inst with
  | Except.error e => (db, Except.error e)
  | Except.ok _ => (db ++ [inst], Except.ok inst)

/-- Embedding of ReusableBlockSerializer.update (api/serializers.py):
set the validated attributes on the in-memory instance, run full_clean
against the database as it currently stands, and only on success replace
the stored row.  On a validation error the database is returned
unchanged. -/
def serializer_update (db : DB) (b : RBlock) (newContent : List Segment) :
    DB × Except String RBlock :=
  let inst : RBlock := { b with content := newContent }
  match full_clean db inst with
  | Except.error e => (db, Except.error e)
  | Except.ok _ =>
    (db.map (fun x => if x.pk = inst.pk then inst else x), Except.ok inst)

/-- Validation error message of ReusableBlockSerializer.validate_slug. -/
def slug_exists_msg : String := "A reusable block with this slug already exists."

/-- Embedding of ReusableBlockSerializer.validate_slug
(api/serializers.py): filter the table for rows carrying the proposed
slug, exclude the instance under edit when updating, and fail when the
queryset is non-empty.  The instance argument is Option.none on create
and the primary key of the edited row on update. -/
def validate_slug (db : DB) (inst : Option Nat) (slug : String) :
    Except String String :=
  let qs := db.filter (fun b => b.slug == slug)
  let qs :=
    match inst with
    | Option.none => qs
    | Option.some pk => qs.filter (fun b => b.pk != pk)
  if qs.isEmpty then Except.ok slug else Except.error slug_exists_msg

/-- Character-list matcher: the first list is a pattern tested against
the beginning of the second list. -/
def matchesAt : List Char → List Char → Bool
  | [], _ => true
  | _ :: _, [] => false
  | p :: ps, c :: cs => p == c && matchesAt ps cs

/-- Attribute marker scanned for by the slot detector. -/
def slotMarker : List Char := "data-slot=\"".data

/-- Modelled from the spec: information about one detected slot, its
identifier together with the best-effort default inner content of the
slot element (utils/slot_detection.py is absent from the source
snapshot). -/
structure SlotInfo where
  slot_id : String
  default_html : String
deriving DecidableEq

/-- Modelled from the spec: best-effort scan of a character stream for
data-slot attributes, in document order, duplicates included.  For each
marker occurrence the identifier runs to the closing quote; the default
inner content is approximated as the text between the end of the opening
tag and the next tag delimiter (the spec asks for a best-effort static
analysis that never fails on malformed HTML).  The fuel argument bounds
the scan for termination and is instantiated with the input length. -/
def scanSlots : Nat → List Char → List SlotInfo
  | 0, _ => []
  | _ + 1, [] => []
  | fuel + 1, c :: rest =>
    if matchesAt slotMarker (c :: rest) then
      let after := (c :: rest).drop slotMarker.length
      let slotId := after.takeWhile (fun ch => ch != '"')
      let afterId := after.dropWhile (fun ch => ch != '"')
      let afterTag := (afterId.dropWhile (fun ch => ch != '>')).drop 1
      let innerHtml := afterTag.takeWhile (fun ch => ch != '<')
      { slot_id := String.mk slotId, default_html := String.mk innerHtml } ::
        scanSlots fuel afterId
    else
      scanSlots fuel rest

/-- First-occurrence deduplication by slot identifier: a slot id already
seen is dropped, so duplicate ids are reported exactly once and order of
first appearance is preserved. -/
def dedupSlots (seen : List String) : List SlotInfo → List SlotInfo
  | [] => []
  | s :: rest =>
    if s.slot_id ∈ seen then dedupSlots seen rest
    else s :: dedupSlots (s.slot_id :: seen) rest

/-- Modelled from the spec: detect_slots_from_html
(utils/slot_detection.py is absent from the source snapshot; only
utils/dunder-init and blocks/layout.py import it).  Per spec section
4.2: scan the HTML for elements carrying a data-slot attribute and
return one SlotInfo per distinct slot id in document order of first
appearance; a pure total scan, so malformed HTML never raises. -/
def detect_slots_from_html (html : String) : List SlotInfo :=
  dedupSlots [] (scanSlots html.data.length html.data)

/-- Slot fill supplied to a layout: target slot identifier and content
segments (blocks/slot_fill.py SlotFillBlock value). -/
structure SlotFill where
  slot_id : String
  content : List Segment
deriving DecidableEq

/-- Rendered HTML of one slot fill content stream. -/
def renderFill (f : SlotFill) : String :=
  String.join (f.content.map segHtml)

/-- First fill matching a slot id, if any. -/
def findFill (fills : List SlotFill) (slotId : String) : Option SlotFill :=
  fills.find? (fun f => f.slot_id == slotId)

/-- Modelled from the spec: the injection walk of render_layout_with_slots
(utils/rendering.py is absent from the source snapshot).  At each
data-slot occurrence whose id has a matching fill, the best-effort inner
content of the slot element is replaced by the rendered fill; slots
without a matching fill keep their default content, and fills whose slot
id never occurs are ignored.  Fuel bounds the walk for termination. -/
def injectSlots (fills : List SlotFill) : Nat → List Char → List Char
  | 0, cs => cs
  | _ + 1, [] => []
  | fuel + 1, c :: rest =>
    if matchesAt slotMarker (c :: rest) then
      let after := (c :: rest).drop slotMarker.length
      let slotId := String.mk (after.takeWhile (fun ch => ch != '"'))
      let afterId := after.dropWhile (fun ch => ch != '"')
      match findFill fills slotId with
      | Option.none =>
        ((c :: rest).take slotMarker.length) ++ injectSlots fills fuel after
      | Option.some f =>
        let keptTag := afterId.takeWhile (fun ch => ch != '>')
        let afterTag := (afterId.dropWhile (fun ch => ch != '>')).drop 1
        let afterInner := afterTag.dropWhile (fun ch => ch != '<')
        (((c :: rest).take slotMarker.length) ++ (after.takeWhile (fun ch => ch != '"'))
            ++ keptTag ++ ['>']) ++ (renderFill f).data ++ injectSlots fills fuel afterInner
    else
      c :: injectSlots fills fuel rest

/-- Modelled from the spec: render_layout_with_slots (utils/rendering.py
is absent from the source snapshot).  Per spec section 4.3: when
slot_fills is empty the layout HTML is returned unchanged without any
scanning; otherwise the slot elements with matching fills have their
inner content replaced. -/
def render_layout_with_slots (layout_html : String) (slot_fills : List SlotFill)
    (_context : Ctx) : String :=
  if slot_fills.isEmpty then layout_html
  else String.mk (injectSlots slot_fills layout_html.data.length layout_html.data)

/-- Embedding of ReusableLayoutBlock.render (blocks/layout.py) after the
layout ReusableBlock has been rendered to HTML: when the slot_content
stream is empty the rendered layout HTML is returned as-is (mark_safe
does not alter the string); otherwise the collected slot fills are
injected via render_layout_with_slots. -/
def layoutRender (layout_html : String) (slot_content : List SlotFill)
    (context : Ctx) : String :=
  if slot_content.isEmpty then layout_html
  else render_layout_with_slots layout_html slot_content context

/-- Property of a message that mentions the failed template lookup. -/
def mentions_not_found (m : String) : Prop :=
  ∃ pre post, m = pre ++ (" not found. " ++ post)

/-- C5 — the spec and tests/test_circular_reference.py
(test_default_max_nesting_depth) promise that an unconfigured
MAX_NESTING_DEPTH resolves to the integer 5, but the DEFAULTS dict of
conf.py carries no MAX_NESTING_DEPTH entry, so get_setting falls through
to None: the code disagrees with its own test suite at this input. -/
theorem c5_max_nesting_depth_default_is_none :
    get_setting [] "MAX_NESTING_DEPTH" Val.none = Val.none ∧
      Val.none ≠ Val.int 5 := by
  exact ⟨rfl, by decide⟩

/-- C6 — identity law for empty fills: rendering a layout with an empty
slot-fill sequence returns the rendered layout HTML unchanged, both at
the ReusableLayoutBlock.render short-circuit and at
render_layout_with_slots itself, for every HTML string and context. -/
theorem c6_empty_fills_identity (layout_html : String) (context : Ctx) :
    layoutRender layout_html [] context = layout_html ∧
      render_layout_with_slots layout_html [] context = layout_html := by
  constructor
  · simp [layoutRender]
  · simp [render_layout_with_slots]

/-- C10 — get_setting returns the user-configured value whenever the key
is present in WAGTAIL_REUSABLE_BLOCKS, even a falsy one, regardless of
the explicit default argument and of DEFAULTS; and the Python default
None (the value an omitted default argument takes) makes the lookup fall
back to DEFAULTS for absent keys. -/
theorem c10_get_setting_precedence (user : List (String × Val)) (key : String)
    (default v : Val) :
    (dictGet user key = Option.some v → get_setting user key default = v) ∧
      (get_setting user key Val.none =
        (dictGet user key).getD ((dictGet DEFAULTS key).getD Val.none)) ∧
      (dictGet user key = Option.none →
        get_setting user key Val.none = (dictGet DEFAULTS key).getD Val.none) := by
  refine ⟨fun h => ?_, ?_, fun h => ?_⟩
  · simp [get_setting, h]
  · simp [get_setting]
  · simp [get_setting, h]

/-- Witness for C10 at concrete inputs: a stored falsy value (the integer
0) wins over an explicit default, and with no user settings the TEMPLATE
key falls back to the DEFAULTS entry. -/
theorem c10_get_setting_precedence_witness :
    get_setting [("MAX_NESTING_DEPTH", Val.int 0)] "MAX_NESTING_DEPTH" (Val.int 99) = Val.int 0 ∧
      get_setting [] "TEMPLATE" Val.none = Val.str "wagtail_reusable_blocks/reusable_block.html" := by
  constructor
  · exact (c10_get_setting_precedence [("MAX_NESTING_DEPTH", Val.int 0)]
      "MAX_NESTING_DEPTH" (Val.int 99) (Val.int 0)).1 rfl
  · exact ((c10_get_setting_precedence [] "TEMPLATE" Val.none Val.none).2.2 rfl).trans rfl

/-- C4 — a None reference and a reference to a deleted or nonexistent
row both render as the empty string in render_basic, for every loader,
settings, database and context; render_basic is a total function into
String, so no exception ever reaches the caller. -/
theorem c4_missing_block_renders_empty (loader : Loader)
    (user_settings : List (String × Val)) (db : DB) (value : Option Nat) (context : Ctx)
    (h : value = Option.none ∨ ∃ pk, value = Option.some pk ∧ dbFind db pk = Option.none) :
    render_basic loader user_settings db value context = "" := by
  rcases h with h | ⟨pk, hv, hfind⟩
  · simp [render_basic, h]
  · simp [render_basic, hv, hfind]

/-- Witness for C4: an empty database and the dangling reference 9. -/
theorem c4_missing_block_renders_empty_witness :
    render_basic defaultLoader [] [] (Option.some 9) [] = "" :=
  c4_missing_block_renders_empty defaultLoader [] [] (Option.some 9) []
    (Or.inr ⟨9, rfl, rfl⟩)

/-- C2 — the spec and tests/test_circular_reference.py
(test_max_depth_exceeded_warning) promise that render_basic emits the
placeholder Maximum nesting depth exceeded once the context depth
counter reaches MAX_NESTING_DEPTH, but the chooser in blocks/chooser.py
never reads the context depth: with the depth counter at 5 (and at any
other value) it renders the referenced content itself, and the
placeholder never appears. -/
theorem c2_depth_counter_ignored (context : Ctx) :
    render_basic defaultLoader []
        [⟨7, "deep-block", [Segment.rich_text "<p>Content</p>"]⟩]
        (Option.some 7) context = "<p>Content</p>" ∧
      "<p>Content</p>" ≠ "Maximum nesting depth exceeded" := by
  exact ⟨rfl, by decide⟩

/-- Unfolding equation of the circular-reference detection. -/
lemma detect_unfold (db : DB) (fuel : Nat) (b : RBlock) (visited : List Nat) :
    detect_circular_references db fuel b visited =
      if b.pk ∈ visited then Except.error "Circular reference detected"
      else
        match fuel with
        | 0 => Except.ok ()
        | Nat.succ f =>
          detectRefsWith (detect_circular_references db f)
            (get_referenced_blocks db b) (b.pk :: visited) := by
  cases fuel with
  | zero => rfl
  | succ f => rfl

/-- Every failure of the referenced-block walk carries the
circular-reference message, provided every failure of the supplied
one-block step does. -/
lemma detectRefsWith_error_msg (step : RBlock → List Nat → Except String Unit)
    (H : ∀ b visited e, step b visited = Except.error e →
      e = "Circular reference detected") :
    ∀ l visited e, detectRefsWith step l visited = Except.error e →
      e = "Circular reference detected" := by
  intro l
  induction l with
  | nil =>
    intro visited e h
    simp [detectRefsWith] at h
  | cons r rs ih =>
    intro visited e h
    rw [detectRefsWith] at h
    cases hr : step r visited with
    | error e2 =>
      rw [hr] at h
      have he : e2 = e := by
        injection h
      exact he ▸ H r visited e2 hr
    | ok u =>
      rw [hr] at h
      exact ih visited e h

/-- Every failure of the circular-reference detection carries the message
Circular reference detected. -/
lemma detect_error_msg (db : DB) :
    ∀ fuel b visited e, detect_circular_references db fuel b visited = Except.error e →
      e = "Circular reference detected" := by
  intro fuel
  induction fuel with
  | zero =>
    intro b visited e h
    rw [detect_circular_references] at h
    by_cases hm : b.pk ∈ visited
    · rw [if_pos hm] at h
      injection h with he
      exact he.symm
    · rw [if_neg hm] at h
      cases h
  | succ f ih =>
    intro b visited e h
    rw [detect_circular_references] at h
    by_cases hm : b.pk ∈ visited
    · rw [if_pos hm] at h
      injection h with he
      exact he.symm
    · rw [if_neg hm] at h
      exact detectRefsWith_error_msg (detect_circular_references db f) ih
        (get_referenced_blocks db b) (b.pk :: visited) e h

/-- C3 — detect_circular_references raises Circular reference detected
whenever the identifier of the block is already in the visited set, and
a block whose content holds no reference segments validates cleanly from
an empty visited set, at every fuel. -/
theorem c3_detection_visited_and_no_refs (db : DB) (fuel : Nat) (b : RBlock)
    (visited : List Nat) :
    (b.pk ∈ visited →
      detect_circular_references db fuel b visited = Except.error "Circular reference detected") ∧
      ((∀ t, Segment.block_ref t ∉ b.content) →
        detect_circular_references db fuel b [] = Except.ok ()) := by
  constructor
  · intro hm
    rw [detect_unfold, if_pos hm]
  · intro hnoref
    have hrefs : get_referenced_blocks db b = [] := by
      rw [get_referenced_blocks, List.filterMap_eq_nil_iff]
      intro seg hseg
      cases seg with
      | rich_text h => rfl
      | raw_html h => rfl
      | block_ref t => exact absurd hseg (hnoref t)
    rw [detect_unfold, if_neg (List.not_mem_nil b.pk)]
    cases fuel with
    | zero => rfl
    | succ f =>
      rw [hrefs]
      rfl

/-- Witness for C3: a block already on the validation path fails with the
circular-reference message, and a reference-free block passes from an
empty visited set. -/
theorem c3_detection_visited_and_no_refs_witness :
    detect_circular_references [] 3 ⟨1, "a", [Segment.rich_text "<p>x</p>"]⟩ [1] =
        Except.error "Circular reference detected" ∧
      detect_circular_references [] 3 ⟨1, "a", [Segment.rich_text "<p>x</p>"]⟩ [] =
        Except.ok () := by
  constructor
  · exact (c3_detection_visited_and_no_refs [] 3 ⟨1, "a", [Segment.rich_text "<p>x</p>"]⟩ [1]).1
      (by decide)
  · exact (c3_detection_visited_and_no_refs [] 3 ⟨1, "a", [Segment.rich_text "<p>x</p>"]⟩ [1]).2
      (by intro t ht; simp at ht)

/-- C1 — whenever full_clean rejects the in-memory instance, both
serializer save paths surface the validation error and leave the
database untouched, and the error carries the message
Circular reference detected: validation runs strictly before
persistence on create and update. -/
theorem c1_circular_save_rejected (db : DB) (b inst : RBlock)
    (newContent : List Segment) (e₁ e₂ : String)
    (h₁ : full_clean db { b with content := newContent } = Except.error e₁)
    (h₂ : full_clean db inst = Except.error e₂) :
    serializer_update db b newContent = (db, Except.error e₁) ∧
      serializer_create db inst = (db, Except.error e₂) ∧
      e₁ = "Circular reference detected" ∧
      e₂ = "Circular reference detected" := by
  refine ⟨?_, ?_, ?_, ?_⟩
  · rw [serializer_update]
    rw [h₁]
  · rw [serializer_create, h₂]
  · exact detect_error_msg db (db.length + 1) { b with content := newContent } [] e₁ h₁
  · exact detect_error_msg db (db.length + 1) inst [] e₂ h₂

/-- Witness for C1: block 1 references block 2; updating block 2 to
reference block 1 closes the cycle, and creating an instance whose
content closes the same cycle through the stored rows is likewise
rejected; in both cases the table keeps its previous rows. -/
theorem c1_circular_save_rejected_witness :
    serializer_update [⟨1, "a", [Segment.block_ref 2]⟩, ⟨2, "b", []⟩]
        ⟨2, "b", []⟩ [Segment.block_ref 1] =
      ([⟨1, "a", [Segment.block_ref 2]⟩, ⟨2, "b", []⟩],
        Except.error "Circular reference detected") ∧
    serializer_create [⟨1, "a", [Segment.block_ref 2]⟩, ⟨2, "b", []⟩]
        ⟨2, "b2", [Segment.block_ref 1]⟩ =
      ([⟨1, "a", [Segment.block_ref 2]⟩, ⟨2, "b", []⟩],
        Except.error "Circular reference detected") := by
  have h := c1_circular_save_rejected [⟨1, "a", [Segment.block_ref 2]⟩, ⟨2, "b", []⟩]
    ⟨2, "b", []⟩ ⟨2, "b2", [Segment.block_ref 1]⟩ [Segment.block_ref 1]
    "Circular reference detected" "Circular reference detected" rfl rfl
  exact ⟨h.1, h.2.1⟩

/-- C8 — slug validation in the serializer fails exactly when another
stored block (one with a different primary key than the instance under
edit) already carries the proposed slug: on create any holder of the
slug blocks it, on update only holders other than the instance itself
do, and in particular an update keeping its own slug passes. -/
theorem c8_slug_unique_excluding_self (db : DB) (slug : String) (pk : Nat) :
    (validate_slug db Option.none slug = Except.error slug_exists_msg ↔
      ∃ b ∈ db, b.slug = slug) ∧
      (validate_slug db (Option.some pk) slug = Except.error slug_exists_msg ↔
        ∃ b ∈ db, b.slug = slug ∧ b.pk ≠ pk) ∧
      ((∀ b ∈ db, b.slug = slug → b.pk = pk) →
        validate_slug db (Option.some pk) slug = Except.ok slug) := by
  refine ⟨?_, ?_, ?_⟩
  · simp only [validate_slug]
    by_cases hC : ∃ b ∈ db, b.slug = slug
    · obtain ⟨b, hb, hs⟩ := hC
      have hne : (db.filter (fun x => x.slug == slug)).isEmpty = false := by
        rw [List.isEmpty_eq_false_iff_exists_mem]
        exact ⟨b, List.mem_filter.mpr ⟨hb, by simp [hs]⟩⟩
      simp only [hne, Bool.false_eq_true, if_false, true_iff]
      exact ⟨b, hb, hs⟩
    · have he : (db.filter (fun x => x.slug == slug)).isEmpty = true := by
        rw [List.isEmpty_iff, List.filter_eq_nil_iff]
        intro b hb hbe
        exact hC ⟨b, hb, by simpa using hbe⟩
      simp only [he, if_true]
      simp only [iff_false_intro hC, iff_false]
      intro h
      cases h
  · simp only [validate_slug]
    by_cases hC : ∃ b ∈ db, b.slug = slug ∧ b.pk ≠ pk
    · obtain ⟨b, hb, hs, hp⟩ := hC
      have hne : ((db.filter (fun x => x.slug == slug)).filter (fun x => x.pk != pk)).isEmpty = false := by
        rw [List.isEmpty_eq_false_iff_exists_mem]
        exact ⟨b, List.mem_filter.mpr ⟨List.mem_filter.mpr ⟨hb, by simp [hs]⟩, by simp [hp]⟩⟩
      simp only [hne, Bool.false_eq_true, if_false, true_iff]
      exact ⟨b, hb, hs, hp⟩
    · have he : ((db.filter (fun x => x.slug == slug)).filter (fun x => x.pk != pk)).isEmpty = true := by
        rw [List.isEmpty_iff, List.filter_eq_nil_iff]
        intro b hb hbe
        have hb1 := List.mem_filter.mp hb
        exact hC ⟨b, hb1.1, by simpa using hb1.2, by simpa using hbe⟩
      simp only [he, if_true]
      simp only [iff_false_intro hC, iff_false]
      intro h
      cases h
  · intro hall
    simp only [validate_slug]
    have he : ((db.filter (fun x => x.slug == slug)).filter (fun x => x.pk != pk)).isEmpty = true := by
      rw [List.isEmpty_iff, List.filter_eq_nil_iff]
      intro b hb hbe
      have hb1 := List.mem_filter.mp hb
      have : b.pk = pk := hall b hb1.1 (by simpa using hb1.2)
      simp [this] at hbe
    simp only [he, if_true]

/-- Witness for C8: a single stored block with slug a and primary key 1;
updating block 1 while keeping the slug a passes validation. -/
theorem c8_slug_unique_excluding_self_witness :
    validate_slug [⟨1, "a", []⟩] (Option.some 1) "a" = Except.ok "a" :=
  (c8_slug_unique_excluding_self [⟨1, "a", []⟩] "a" 1).2.2 (by decide)

/-- Both variants of the augmented template error message mention the
failed lookup. -/
lemma missing_template_msg_mentions_not_found (template : Option String) (name : String) :
    mentions_not_found (missing_template_msg template name) := by
  cases template with
  | none =>
    refine ⟨"Default template " ++ name,
      "This may indicate a package installation issue. Try reinstalling " ++
        "wagtail-reusable-blocks or set a custom template via the WAGTAIL_REUSABLE_BLOCKS TEMPLATE setting.", ?_⟩
    simp only [missing_template_msg, String.append_assoc]
  | some t =>
    refine ⟨"Template " ++ name,
      "Make sure it exists in one of your TEMPLATES DIRS or app template directories.", ?_⟩
    simp only [missing_template_msg, String.append_assoc]

/-- C9 — when the loader cannot resolve the template named by the
template argument or the TEMPLATE setting, ReusableBlock.render raises
TemplateDoesNotExist carrying the augmented message that mentions the
failed lookup; it never degrades to any successful output, and the
conversion to the empty string happens only in
ReusableBlockChooserBlock.render_basic, which catches the exception. -/
theorem c9_template_error_raised_not_swallowed (loader : Loader)
    (user_settings : List (String × Val)) (template : Option String)
    (b : RBlock) (context : Ctx) (db : DB) (pk : Nat)
    (h : loader (template_or template
      (valToStr (get_setting user_settings "TEMPLATE" Val.none))) = Option.none)
    (hdefault : loader (template_or Option.none
      (valToStr (get_setting user_settings "TEMPLATE" Val.none))) = Option.none)
    (hfind : dbFind db pk = Option.some b) :
    blockRender loader user_settings template b context =
        Except.error (missing_template_msg template
          (template_or template (valToStr (get_setting user_settings "TEMPLATE" Val.none)))) ∧
      (∀ s, blockRender loader user_settings template b context ≠ Except.ok s) ∧
      mentions_not_found (missing_template_msg template
        (template_or template (valToStr (get_setting user_settings "TEMPLATE" Val.none)))) ∧
      render_basic loader user_settings db (Option.some pk) context = "" := by
  have hbr : blockRender loader user_settings template b context =
      Except.error (missing_template_msg template
        (template_or template (valToStr (get_setting user_settings "TEMPLATE" Val.none)))) := by
    rw [blockRender]
    rw [h]
  refine ⟨hbr, ?_, missing_template_msg_mentions_not_found template _, ?_⟩
  · intro s hs
    rw [hbr] at hs
    cases hs
  · have hbd : blockRender loader user_settings Option.none b context =
        Except.error (missing_template_msg Option.none
          (template_or Option.none (valToStr (get_setting user_settings "TEMPLATE" Val.none)))) := by
      rw [blockRender]
      rw [hdefault]
    simp only [render_basic, hfind, hbd]

/-- Witness for C9: an empty loader (no template can be found), the
default settings and a one-row table. -/
theorem c9_template_error_raised_not_swallowed_witness :
    blockRender (fun _ => Option.none) [] (Option.some "custom/template.html")
        ⟨1, "a", []⟩ [] =
      Except.error (missing_template_msg (Option.some "custom/template.html")
        "custom/template.html") ∧
    render_basic (fun _ => Option.none) [] [⟨1, "a", []⟩] (Option.some 1) [] = "" := by
  have h := c9_template_error_raised_not_swallowed (fun _ => Option.none) []
    (Option.some "custom/template.html") ⟨1, "a", []⟩ [] [⟨1, "a", []⟩] 1 rfl rfl rfl
  exact ⟨h.1, h.2.2.2⟩

/-- Deduplication returns a sublist of its input, so detected slots keep
document order. -/
lemma dedupSlots_sublist : ∀ (l : List SlotInfo) (seen : List String),
    List.Sublist (dedupSlots seen l) l := by
  intro l
  induction l with
  | nil =>
    intro seen
    simp [dedupSlots]
  | cons s rest ih =>
    intro seen
    rw [dedupSlots]
    by_cases hs : s.slot_id ∈ seen
    · rw [if_pos hs]
      exact List.Sublist.cons s (ih seen)
    · rw [if_neg hs]
      exact List.Sublist.cons₂ s (ih (s.slot_id :: seen))

/-- Membership of a slot id after deduplication: exactly the ids of the
input that are not among the already-seen ids. -/
lemma mem_dedupSlots_map : ∀ (l : List SlotInfo) (seen : List String) (i : String),
    i ∈ (dedupSlots seen l).map SlotInfo.slot_id ↔
      (i ∉ seen ∧ i ∈ l.map SlotInfo.slot_id) := by
  intro l
  induction l with
  | nil =>
    intro seen i
    simp [dedupSlots]
  | cons s rest ih =>
    intro seen i
    rw [dedupSlots]
    by_cases hs : s.slot_id ∈ seen
    · rw [if_pos hs, ih]
      simp only [List.map_cons, List.mem_cons]
      constructor
      · rintro ⟨hni, hmem⟩
        exact ⟨hni, Or.inr hmem⟩
      · rintro ⟨hni, hmem | hmem⟩
        · exact absurd (hmem ▸ hs) hni
        · exact ⟨hni, hmem⟩
    · rw [if_neg hs]
      simp only [List.map_cons, List.mem_cons]
      rw [ih]
      constructor
      · rintro (rfl | ⟨hni, hmem⟩)
        · exact ⟨hs, Or.inl rfl⟩
        · exact ⟨fun hin => hni (List.mem_cons_of_mem _ hin), Or.inr hmem⟩
      · rintro ⟨hni, rfl | hmem⟩
        · exact Or.inl rfl
        · by_cases hie : i = s.slot_id
          · exact Or.inl hie
          · refine Or.inr ⟨?_, hmem⟩
            intro hin
            rcases List.mem_cons.mp hin with h | h
            · exact hie h
            · exact hni h

/-- Deduplicated slots carry pairwise distinct slot ids. -/
lemma dedupSlots_nodup : ∀ (l : List SlotInfo) (seen : List String),
    ((dedupSlots seen l).map SlotInfo.slot_id).Nodup := by
  intro l
  induction l with
  | nil =>
    intro seen
    simp [dedupSlots]
  | cons s rest ih =>
    intro seen
    rw [dedupSlots]
    by_cases hs : s.slot_id ∈ seen
    · rw [if_pos hs]
      exact ih seen
    · rw [if_neg hs]
      simp only [List.map_cons, List.nodup_cons]
      refine ⟨?_, ih _⟩
      intro hmem
      exact ((mem_dedupSlots_map rest (s.slot_id :: seen) s.slot_id).mp hmem).1
        (List.mem_cons_self _ _)

/-- The slot marker starts with the letter d. -/
lemma slotMarker_head : slotMarker = 'd' :: "ata-slot=\"".data := rfl

/-- The scanner finds nothing in whitespace-only input. -/
lemma scanSlots_whitespace : ∀ (fuel : Nat) (cs : List Char),
    (∀ c ∈ cs, c.isWhitespace = true) → scanSlots fuel cs = [] := by
  intro fuel
  induction fuel with
  | zero =>
    intro cs h
    rfl
  | succ f ih =>
    intro cs h
    cases cs with
    | nil => rfl
    | cons c rest =>
      have hc : c.isWhitespace = true := h c (List.mem_cons_self c rest)
      have hne : ('d' == c) = false := by
        rw [beq_eq_false_iff_ne]
        intro hd
        rw [← hd] at hc
        exact absurd hc (by decide)
      have hm : matchesAt slotMarker (c :: rest) = false := by
        rw [slotMarker_head, matchesAt, hne, Bool.false_and]
      rw [scanSlots]
      simp only [hm, Bool.false_eq_true, if_false]
      exact ih rest (fun x hx => h x (List.mem_cons_of_mem c hx))

/-- C7 — detect_slots_from_html reports each distinct slot id exactly
once (duplicates collapse), keeps the document order of the underlying
scan, reports exactly the ids the scan finds, and yields the empty
sequence on empty or whitespace-only HTML; being a total function, it
never raises on malformed HTML. -/
theorem c7_detect_slots_distinct_ordered (html : String) :
    ((detect_slots_from_html html).map SlotInfo.slot_id).Nodup ∧
      (∀ i, i ∈ (detect_slots_from_html html).map SlotInfo.slot_id ↔
        i ∈ (scanSlots html.data.length html.data).map SlotInfo.slot_id) ∧
      List.Sublist (detect_slots_from_html html)
        (scanSlots html.data.length html.data) ∧
      ((∀ c ∈ html.data, c.isWhitespace = true) → detect_slots_from_html html = []) := by
  refine ⟨dedupSlots_nodup _ [], fun i => ?_, dedupSlots_sublist _ [], fun hws => ?_⟩
  · rw [detect_slots_from_html, mem_dedupSlots_map]
    simp
  · rw [detect_slots_from_html, scanSlots_whitespace html.data.length html.data hws]
    rfl

/-- Witness for C7: whitespace-only input yields no slots, and HTML with
two elements sharing the slot id main yields exactly one SlotInfo, for
main. -/
theorem c7_detect_slots_distinct_ordered_witness :
    detect_slots_from_html "  " = [] ∧
      ((detect_slots_from_html
        "<div data-slot=\"main\">A</div><p data-slot=\"main\">B</p>").map
          SlotInfo.slot_id).Nodup ∧
      (detect_slots_from_html
        "<div data-slot=\"main\">A</div><p data-slot=\"main\">B</p>").map
          SlotInfo.slot_id = ["main"] := by
  refine ⟨?_, ?_, rfl⟩
  · exact (c7_detect_slots_distinct_ordered "  ").2.2.2 (by decide)
  · exact (c7_detect_slots_distinct_ordered
      "<div data-slot=\"main\">A</div><p data-slot=\"main\">B</p>").1

end WRB


